/-
Verification of the client-side cart store and feed controller of the
buxxel marketplace front end (static/js/app.js and its paginated variant).

The JavaScript is embedded shallowly:
  * the cart (a plain JS object keyed by item id) becomes an association
    list `Cart := List (String × CartLine)` in key-insertion order;
  * JS numbers used for prices become `ℚ`, quantities become `Int`;
  * the DOM/button state driving pagination becomes an explicit
    `FeedState` record, and the asynchronous AJAX callbacks become an
    event-step relation (`FeedEvent`, `step`) over that record;
  * `localStorage` content becomes `Option String`, and the JSON.parse /
    JSON.stringify builtins are modelled by an executable `Json` type
    with a parser and serializer defined below.
-/
import Mathlib

set_option maxRecDepth 4000

/-! ## Cart store

Embeds the cart logic of `$(document).ready` in app.js:
`let cart = JSON.parse(localStorage.getItem('buxxelCart')) || {};`
with handlers `.add-to-cart-btn`, `.increase-qty`, `.decrease-qty`,
`.remove-item`, plus `updateCart` (totals) and `saveCart`. -/

/-- One value of the cart object: `{ name: ..., price: ..., quantity: ... }`. -/
structure CartLine where
  name : String
  price : ℚ
  quantity : Int
deriving Repr, DecidableEq

/-- The cart object: a JS object keyed by item id, in insertion order. -/
abbrev Cart := List (String × CartLine)

/-- `cart[id]` — the line stored under `id`, if present. -/
def cartFind (c : Cart) (id : String) : Option CartLine :=
  (c.find? fun kv => kv.1 == id).map Prod.snd

/-- Updates, in place, the value stored under `id` (used for `quantity++`
and `quantity--`, which mutate the line object where it sits). -/
def cartUpdate (c : Cart) (id : String) (f : CartLine → CartLine) : Cart :=
  c.map fun kv => if kv.1 = id then (kv.1, f kv.2) else kv

/-- `delete cart[id]`. -/
def cartErase (c : Cart) (id : String) : Cart :=
  c.filter fun kv => !(kv.1 == id)

/-- The `.add-to-cart-btn` click handler:
`if (cart[id]) cart[id].quantity++; else cart[id] = {name, price, quantity: 1};` -/
def addToCart (c : Cart) (id nm : String) (price : ℚ) : Cart :=
  match cartFind c id with
  | some _ => cartUpdate c id fun l => { l with quantity := l.quantity + 1 }
  | none => c ++ [(id, { name := nm, price := price, quantity := 1 })]

/-- The `.increase-qty` handler: `if (cart[id]) { cart[id].quantity++; }`. -/
def increaseQty (c : Cart) (id : String) : Cart :=
  match cartFind c id with
  | some _ => cartUpdate c id fun l => { l with quantity := l.quantity + 1 }
  | none => c

/-- The `.decrease-qty` handler:
`if (cart[id]) { cart[id].quantity--; if (cart[id].quantity <= 0) delete cart[id]; }` -/
def decreaseQty (c : Cart) (id : String) : Cart :=
  match cartFind c id with
  | some l =>
      if l.quantity - 1 ≤ 0 then cartErase c id
      else cartUpdate c id fun l => { l with quantity := l.quantity - 1 }
  | none => c

/-- The `.remove-item` handler: `if (cart[id]) { delete cart[id]; }`. -/
def removeItem (c : Cart) (id : String) : Cart :=
  match cartFind c id with
  | some _ => cartErase c id
  | none => c

/-- The totals accumulated by `updateCart`'s `for (const id in cart)` loop:
`totalItems += item.quantity; totalPrice += item.price * item.quantity;`. -/
def totals (c : Cart) : Int × ℚ :=
  c.foldl (fun acc kv => (acc.1 + kv.2.quantity, acc.2 + kv.2.price * (kv.2.quantity : ℚ))) (0, 0)

/-- The four cart mutations, as user events. -/
inductive CartOp where
  | add (id nm : String) (price : ℚ)
  | inc (id : String)
  | dec (id : String)
  | rem (id : String)
deriving Repr, DecidableEq

def applyOp (c : Cart) : CartOp → Cart
  | .add id nm p => addToCart c id nm p
  | .inc id => increaseQty c id
  | .dec id => decreaseQty c id
  | .rem id => removeItem c id

/-- The cart reached from the empty cart by a sequence of events. -/
def runOps (ops : List CartOp) : Cart := ops.foldl applyOp []

example : runOps [.add "a" "W" 5, .add "a" "W" 5] = [("a", ⟨"W", 5, 2⟩)] := by decide
example : runOps [.add "a" "W" 5, .dec "a"] = [] := by decide
example : totals (runOps [.add "X1" "Widget" (999/100), .add "X1" "Widget" (999/100)])
    = (2, 1998/100) := by
  simp [runOps, applyOp, addToCart, cartFind, cartUpdate, totals]
  norm_num

/-! ## JSON model

The cart is persisted with `localStorage.setItem('buxxelCart', JSON.stringify(cart))`
and restored with `JSON.parse(localStorage.getItem('buxxelCart')) || {}`.
`JSON.stringify` / `JSON.parse` are browser builtins; they are modelled here by
an executable serializer and recursive-descent parser over a `Json` value type
(numbers as `ℚ`, standing for the decimal values JS numbers take here). -/

/-- A parsed JSON value. -/
inductive Json where
  | null
  | bool (b : Bool)
  | num (q : ℚ)
  | str (s : String)
  | arr (elems : List Json)
  | obj (members : List (String × Json))
deriving Repr, Inhabited

/-- JS truthiness of a JSON-representable value (for `parsed || {}`):
`null`, `false`, `0` and `""` are falsy; every array/object is truthy. -/
def jsTruthy : Json → Bool
  | .null => false
  | .bool b => b
  | .num q => !(q == 0)
  | .str s => !(s == "")
  | .arr _ => true
  | .obj _ => true

def hexDigitChar (n : Nat) : Char :=
  if n < 10 then Char.ofNat (48 + n) else Char.ofNat (87 + n)

/-- JSON string escaping as performed by `JSON.stringify`. -/
def escapeChar (c : Char) : List Char :=
  if c = '"' then ['\\', '"']
  else if c = '\\' then ['\\', '\\']
  else if c = '\n' then ['\\', 'n']
  else if c = '\t' then ['\\', 't']
  else if c = '\r' then ['\\', 'r']
  else if c.toNat < 32 then
    ['\\', 'u', '0', '0', hexDigitChar (c.toNat / 16), hexDigitChar (c.toNat % 16)]
  else [c]

def stringifyString (s : String) : String :=
  "\"" ++ String.mk (s.data.map escapeChar).flatten ++ "\""

/-- Smallest power of ten clearing the denominator of `q`, if any below the
bound (every JS number is such a decimal; 1200 covers all doubles). -/
def scaleOf (q : ℚ) : Option Nat :=
  (List.range 1200).find? fun k => (q * (10:ℚ)^k).den = 1

/-- Decimal rendering of a JSON number, as `JSON.stringify` renders the
numbers occurring in this application (integers and finite decimals). -/
def stringifyNum (q : ℚ) : String :=
  if q.den = 1 then toString q.num
  else
    match scaleOf q with
    | none => toString q.num ++ "/" ++ toString q.den
    | some k =>
      let n := (q * (10:ℚ)^k).num
      let sign := if n < 0 then "-" else ""
      let m := n.natAbs
      let ip := m / 10^k
      let fp := m % 10^k
      let fpStr := toString fp
      let pad := String.mk (List.replicate (k - fpStr.length) '0')
      sign ++ toString ip ++ "." ++ pad ++ fpStr

mutual
/-- The `JSON.stringify` builtin, on JSON-representable values. -/
def jsonStringify : Json → String
  | .null => "null"
  | .bool true => "true"
  | .bool false => "false"
  | .num q => stringifyNum q
  | .str s => stringifyString s
  | .arr xs => "[" ++ String.intercalate "," (stringifyElems xs) ++ "]"
  | .obj ms => "\x7b" ++ String.intercalate "," (stringifyMembers ms) ++ "\x7d"

def stringifyElems : List Json → List String
  | [] => []
  | x :: xs => jsonStringify x :: stringifyElems xs

def stringifyMembers : List (String × Json) → List String
  | [] => []
  | kv :: ms => (stringifyString kv.1 ++ ":" ++ jsonStringify kv.2) :: stringifyMembers ms
end

def isWsChar (c : Char) : Bool := c = ' ' ∨ c = '\n' ∨ c = '\t' ∨ c = '\r'

def skipWs : List Char → List Char
  | [] => []
  | c :: cs => if isWsChar c then skipWs cs else c :: cs

def isDigitChar (c : Char) : Bool := '0' ≤ c ∧ c ≤ '9'

/-- Splits a maximal run of decimal digits off the front. -/
def takeDigits : List Char → List Char × List Char
  | [] => ([], [])
  | c :: cs =>
    if isDigitChar c then
      let p := takeDigits cs
      (c :: p.1, p.2)
    else ([], c :: cs)

def digitsToNat (ds : List Char) : Nat :=
  ds.foldl (fun a c => a * 10 + (c.toNat - 48)) 0

def hexVal (c : Char) : Option Nat :=
  if isDigitChar c then some (c.toNat - 48)
  else if 'a' ≤ c ∧ c ≤ 'f' then some (c.toNat - 87)
  else if 'A' ≤ c ∧ c ≤ 'F' then some (c.toNat - 55)
  else none

/-- Parses the body of a JSON string after the opening quote, returning the
decoded characters and the input following the closing quote. -/
def parseStringBody : List Char → Option (List Char × List Char)
  | [] => none
  | '"' :: cs => some ([], cs)
  | '\\' :: 'u' :: a :: b :: c :: d :: cs => do
      let ha ← hexVal a
      let hb ← hexVal b
      let hc ← hexVal c
      let hd ← hexVal d
      let p ← parseStringBody cs
      some (Char.ofNat (((ha * 16 + hb) * 16 + hc) * 16 + hd) :: p.1, p.2)
  | '\\' :: e :: cs => do
      let c ←
        if e = '"' then some '"'
        else if e = '\\' then some '\\'
        else if e = '/' then some '/'
        else if e = 'n' then some '\n'
        else if e = 't' then some '\t'
        else if e = 'r' then some '\r'
        else if e = 'b' then some (Char.ofNat 8)
        else if e = 'f' then some (Char.ofNat 12)
        else none
      let p ← parseStringBody cs
      some (c :: p.1, p.2)
  | c :: cs => do
      let p ← parseStringBody cs
      some (c :: p.1, p.2)

/-- Parses a JSON number (integer part, optional fraction, optional exponent). -/
def parseNumber (cs : List Char) : Option (ℚ × List Char) :=
  let (neg, cs1) := match cs with
    | '-' :: r => (true, r)
    | _ => (false, cs)
  let (ip, cs2) := takeDigits cs1
  if ip = [] then none
  else
    let ipq : ℚ := (digitsToNat ip : ℚ)
    let fracParsed : Option (ℚ × List Char) :=
      match cs2 with
      | '.' :: r =>
        let (fp, r2) := takeDigits r
        if fp = [] then none
        else some (ipq + (digitsToNat fp : ℚ) / (10:ℚ)^fp.length, r2)
      | _ => some (ipq, cs2)
    match fracParsed with
    | none => none
    | some (base, cs3) =>
      let expParsed : Option (ℚ × List Char) :=
        match cs3 with
        | 'e' :: r | 'E' :: r =>
          let (esign, r1) := match r with
            | '+' :: r2 => (1, r2)
            | '-' :: r2 => (-1, r2)
            | _ => ((1 : Int), r)
          let (ed, r3) := takeDigits r1
          if ed = [] then none
          else some (base * (10:ℚ) ^ (esign * (digitsToNat ed : Int)), r3)
        | _ => some (base, cs3)
      match expParsed with
      | none => none
      | some (v, cs4) => some ((if neg then -v else v), cs4)

mutual
/-- Recursive-descent JSON value parser (fuel-indexed; fuel is spent on
nesting, never on plain characters). -/
def parseValue : Nat → List Char → Option (Json × List Char)
  | 0, _ => none
  | _fuel+1, cs =>
    match skipWs cs with
    | 'n' :: 'u' :: 'l' :: 'l' :: r => some (.null, r)
    | 't' :: 'r' :: 'u' :: 'e' :: r => some (.bool true, r)
    | 'f' :: 'a' :: 'l' :: 's' :: 'e' :: r => some (.bool false, r)
    | '"' :: r => do
        let p ← parseStringBody r
        some (.str (String.mk p.1), p.2)
    | '[' :: r =>
        (match skipWs r with
        | ']' :: r2 => some (.arr [], r2)
        | _ => do
            let p ← parseElems _fuel r
            some (.arr p.1, p.2))
    | '\x7b' :: r =>
        (match skipWs r with
        | '\x7d' :: r2 => some (.obj [], r2)
        | _ => do
            let p ← parseMembers _fuel r
            some (.obj p.1, p.2))
    | other => do
        let p ← parseNumber other
        some (.num p.1, p.2)

/-- Parses a non-empty comma-separated list of array elements plus `]`. -/
def parseElems : Nat → List Char → Option (List Json × List Char)
  | 0, _ => none
  | fuel+1, cs => do
    let (v, r) ← parseValue fuel cs
    match skipWs r with
    | ',' :: r2 => do
        let (vs, r3) ← parseElems fuel r2
        some (v :: vs, r3)
    | ']' :: r2 => some ([v], r2)
    | _ => none

/-- Parses a non-empty comma-separated list of object members plus
the closing brace. -/
def parseMembers : Nat → List Char → Option (List (String × Json) × List Char)
  | 0, _ => none
  | fuel+1, cs =>
    match skipWs cs with
    | '"' :: r => do
        let (k, r1) ← parseStringBody r
        match skipWs r1 with
        | ':' :: r2 => do
            let (v, r3) ← parseValue fuel r2
            match skipWs r3 with
            | ',' :: r4 => do
                let (ms, r5) ← parseMembers fuel r4
                some ((String.mk k, v) :: ms, r5)
            | '\x7d' :: r4 => some ([(String.mk k, v)], r4)
            | _ => none
        | _ => none
    | _ => none
end

/-- The `JSON.parse` builtin: `none` models a thrown `SyntaxError`. -/
def jsonParse (s : String) : Option Json :=
  match parseValue (3 * s.length + 3) s.data with
  | some (j, rest) => if skipWs rest = [] then some j else none
  | none => none

example : jsonParse "null" = some .null := by with_unfolding_all rfl
example : jsonParse " \x7b \x7d " = some (.obj []) := by with_unfolding_all rfl
example : jsonParse "\x7b\"a\":[1,true,\"x\"]\x7d"
    = some (.obj [("a", .arr [.num 1, .bool true, .str "x"])]) := by with_unfolding_all rfl
example : jsonParse "\x7b" = none := by with_unfolding_all rfl
example : jsonParse "nope" = none := by with_unfolding_all rfl

/-! ## Cart persistence

`saveCart` is `localStorage.setItem('buxxelCart', JSON.stringify(cart))`;
restoring is the startup line
`let cart = JSON.parse(localStorage.getItem('buxxelCart')) || {};`.
The stored slot under the fixed key `'buxxelCart'` is an `Option String`
(`getItem` returns `null` when the key is absent, and `JSON.parse(null)`
coerces its argument to the string `"null"`). -/

/-- The JSON value representing a cart line, as `JSON.stringify` sees it. -/
def cartLineToJson (l : CartLine) : Json :=
  .obj [("name", .str l.name), ("price", .num l.price), ("quantity", .num (l.quantity : ℚ))]

/-- The JSON value representing the whole cart object. -/
def cartToJson (c : Cart) : Json :=
  .obj (c.map fun kv => (kv.1, cartLineToJson kv.2))

/-- `saveCart()`: the string written to local storage. -/
def saveCart (c : Cart) : String := jsonStringify (cartToJson c)

/-- The startup restore expression. `Except.error ()` models the
`SyntaxError` that `JSON.parse` throws on malformed content and that no
surrounding code catches; on success the parsed value (defaulted to the
empty object when falsy) becomes the in-memory cart object. -/
def restoreCart (stored : Option String) : Except Unit Json :=
  match jsonParse (stored.getD "null") with
  | none => .error ()
  | some j => .ok (if jsTruthy j then j else .obj [])

/-- Reads a cart-shaped JSON value back into a typed cart (the inverse view
of `cartToJson`, used to state what "an equivalent mapping" means). -/
def jsonToCartLine : Json → Option CartLine
  | .obj [("name", .str nm), ("price", .num p), ("quantity", .num q)] =>
      if q.den = 1 then some { name := nm, price := p, quantity := q.num } else none
  | _ => none

def jsonMembersToCart : List (String × Json) → Option Cart
  | [] => some []
  | kv :: ms => do
      let l ← jsonToCartLine kv.2
      let c ← jsonMembersToCart ms
      some ((kv.1, l) :: c)

def jsonToCart : Json → Option Cart
  | .obj ms => jsonMembersToCart ms
  | _ => none

example : saveCart [("a", { name := "W", price := 999/100, quantity := 2 })]
    = "\x7b\"a\":\x7b\"name\":\"W\",\"price\":9.99,\"quantity\":2\x7d\x7d" := by
  with_unfolding_all rfl
example :
    restoreCart (some (saveCart [("a", { name := "W", price := 999/100, quantity := 2 })]))
      = .ok (cartToJson [("a", { name := "W", price := 999/100, quantity := 2 })]) := by
  with_unfolding_all rfl
example : restoreCart none = .ok (.obj []) := by with_unfolding_all rfl
example : restoreCart (some "\x7bnot json") = .error () := by with_unfolding_all rfl

/-! ## Feed controller

Embeds `loadMoreListings(isNewFilter)` (paginated variant, lines 176-315)
together with its AJAX success/error callbacks and the tag-click /
debounced-search handlers, as a step function over an explicit state:

  * `btnDisabled`/`btnHidden`/`btnLabel` — the `#load-more-btn` DOM state
    that the code uses as its Loading/Exhausted guard;
  * `nextPage` — `button.data('next-page')` (`none` when unset; `some 0`
    would be falsy for the `if (!nextPage) return` check, like `0`);
  * `grid` — the listings rendered into `#listing-grid`;
  * `inFlight` — the pending `$.ajax` requests, each remembering the page,
    the filter read from the DOM when it was issued, its `isNewFilter`
    argument and the button html captured in `originalHtml`;
  * `observerConnected` — whether the IntersectionObserver is observing.
    Note: inside `loadMoreListings`, `observer` names a `const` declared
    in the later `if (loadMoreContainer && loadMoreBtn) { ... }` block.
    That binding is block-scoped, so the `if (observer)` statement in the
    success callback throws a `ReferenceError` instead of disconnecting;
    `refError` records that the handler threw there. -/

/-- The (tag, search text) pair read from `.tag-btn.active` / `#search-bar`. -/
structure FeedFilter where
  tag : String
  search : String
deriving Repr, DecidableEq

/-- A listing as rendered into a card (the fields the claims depend on). -/
structure Listing where
  id : String
  name : String
  price : ℚ
deriving Repr, DecidableEq

/-- One pending `$.ajax` GET of `/api/listings/paged`. -/
structure Request where
  page : Nat
  filter : FeedFilter
  isNewFilter : Bool
  origLabel : String
deriving Repr, DecidableEq

/-- The body a successful fetch resolves with:
`{listings: [...], pagination: {page, has_next}}`. -/
structure Response where
  listings : List Listing
  page : Nat
  hasNext : Bool
deriving Repr, DecidableEq

/-- The DOM/closure state the pagination code runs against. -/
structure FeedState where
  grid : List Listing
  noMatchesMsg : Bool
  btnDisabled : Bool
  btnHidden : Bool
  btnLabel : String
  nextPage : Option Nat
  activeFilter : FeedFilter
  observerConnected : Bool
  refError : Bool
  inFlight : List Request
deriving Repr, DecidableEq

/-- `loadMoreListings(isNewFilter)` up to and including issuing the fetch. -/
def loadMoreListings (s : FeedState) (isNewFilter : Bool) : FeedState :=
  if s.btnDisabled && !isNewFilter then s
  else
    let s1 :=
      if isNewFilter then
        { s with grid := [], noMatchesMsg := false, nextPage := some 1 }
      else s
    match s1.nextPage with
    | none => s1
    | some 0 => s1
    | some (p+1) =>
        { s1 with
          btnDisabled := true
          btnLabel := "Loading..."
          inFlight := s1.inFlight ++
            [{ page := p+1, filter := s1.activeFilter, isNewFilter := isNewFilter,
               origLabel := s1.btnLabel }] }

/-- The `success:` callback of the listings fetch, for the request `req`
it was registered on, resolving with `r`. -/
def succHandler (s : FeedState) (req : Request) (r : Response) : FeedState :=
  let s1 := { s with grid := s.grid ++ r.listings }
  let s2 :=
    if req.isNewFilter && r.listings.isEmpty then
      { s1 with grid := [], noMatchesMsg := true }
    else s1
  if r.hasNext then
    { s2 with nextPage := some (r.page + 1), btnDisabled := false, btnLabel := req.origLabel }
  else
    { s2 with btnHidden := true, refError := true }

/-- The `error:` callback: re-enable the button and offer a retry. -/
def errHandler (s : FeedState) : FeedState :=
  { s with btnDisabled := false, btnLabel := "Failed to load. Try again?" }

/-- Events driving the feed: a tag click or debounced search keyup (both
set the active filter in the DOM and call `loadMoreListings(true)`), a
load-more click / intersection (`loadMoreListings(false)`), and the
resolution — success or failure — of the `i`-th pending fetch. -/
inductive FeedEvent where
  | applyFilter (f : FeedFilter)
  | loadNext
  | respond (i : Nat) (r : Response)
  | fail (i : Nat)
deriving Repr, DecidableEq

def step (s : FeedState) : FeedEvent → FeedState
  | .applyFilter f => loadMoreListings { s with activeFilter := f } true
  | .loadNext => loadMoreListings s false
  | .respond i r =>
      match s.inFlight.get? i with
      | none => s
      | some req => succHandler { s with inFlight := s.inFlight.eraseIdx i } req r
  | .fail i =>
      match s.inFlight.get? i with
      | none => s
      | some _ => errHandler { s with inFlight := s.inFlight.eraseIdx i }

/-- The page-load state: empty grid, enabled button, observer attached
(the startup call `loadMoreListings(true)` is an explicit first event). -/
def initState : FeedState :=
  { grid := [], noMatchesMsg := false, btnDisabled := false, btnHidden := false,
    btnLabel := "Load More", nextPage := none, activeFilter := { tag := "all", search := "" },
    observerConnected := true, refError := false, inFlight := [] }

def runFeed (es : List FeedEvent) : FeedState := es.foldl step initState

example :
    (runFeed [.applyFilter { tag := "a", search := "" },
              .applyFilter { tag := "b", search := "" }]).inFlight.length = 2 := by
  with_unfolding_all rfl
example :
    (runFeed [.applyFilter { tag := "a", search := "" },
              .applyFilter { tag := "b", search := "" },
              .respond 0 { listings := [{ id := "LA", name := "A", price := 5 }], page := 1, hasNext := true },
              .respond 0 { listings := [{ id := "LB", name := "B", price := 5 }], page := 1, hasNext := true }]).grid
      = [{ id := "LA", name := "A", price := 5 }, { id := "LB", name := "B", price := 5 }] := by
  with_unfolding_all rfl

/-! ## Cart lemmas -/

theorem cartFind_eq_none_iff {c : Cart} {id : String} :
    cartFind c id = none ↔ ∀ kv ∈ c, kv.1 ≠ id := by
  simp [cartFind, List.find?_eq_none]

theorem cartFind_cartUpdate_self (c : Cart) (id : String) (f : CartLine → CartLine) :
    cartFind (cartUpdate c id f) id = (cartFind c id).map f := by
  induction c with
  | nil => rfl
  | cons kv c ih =>
    by_cases h : kv.1 = id
    · simp [cartUpdate, cartFind, List.find?_cons, h]
    · simpa [cartUpdate, cartFind, List.find?_cons, h] using ih

theorem cartFind_cons (kv : String × CartLine) (c : Cart) (id : String) :
    cartFind (kv :: c) id = if kv.1 = id then some kv.2 else cartFind c id := by
  by_cases h : kv.1 = id <;> simp [cartFind, List.find?_cons, h]

theorem cartUpdate_cons (kv : String × CartLine) (c : Cart) (id : String)
    (f : CartLine → CartLine) :
    cartUpdate (kv :: c) id f
      = (if kv.1 = id then (kv.1, f kv.2) else kv) :: cartUpdate c id f := rfl

theorem cartFind_cartUpdate_ne (c : Cart) {id id' : String} (f : CartLine → CartLine)
    (h : id' ≠ id) : cartFind (cartUpdate c id f) id' = cartFind c id' := by
  induction c with
  | nil => rfl
  | cons kv c ih =>
    rw [cartUpdate_cons, cartFind_cons, cartFind_cons]
    by_cases hk : kv.1 = id
    · have hhead : (if kv.1 = id then (kv.1, f kv.2) else kv) = (kv.1, f kv.2) := if_pos hk
      have hk' : ¬ (kv.1 = id') := fun hx => h (hx ▸ hk)
      rw [hhead]
      show (if kv.1 = id' then some (f kv.2) else cartFind (cartUpdate c id f) id') = _
      rw [if_neg hk', if_neg hk', ih]
    · have hhead : (if kv.1 = id then (kv.1, f kv.2) else kv) = kv := if_neg hk
      rw [hhead]
      by_cases hk' : kv.1 = id'
      · rw [if_pos hk', if_pos hk']
      · rw [if_neg hk', if_neg hk', ih]

theorem cartErase_cons (kv : String × CartLine) (c : Cart) (id : String) :
    cartErase (kv :: c) id
      = if kv.1 = id then cartErase c id else kv :: cartErase c id := by
  by_cases h : kv.1 = id <;> simp [cartErase, List.filter_cons, h]

theorem cartFind_cartErase_self (c : Cart) (id : String) :
    cartFind (cartErase c id) id = none := by
  rw [cartFind_eq_none_iff]
  intro kv hm
  have := (List.mem_filter.mp hm).2
  simpa using this

theorem cartFind_cartErase_ne (c : Cart) {id id' : String} (h : id' ≠ id) :
    cartFind (cartErase c id) id' = cartFind c id' := by
  induction c with
  | nil => rfl
  | cons kv c ih =>
    rw [cartErase_cons, cartFind_cons]
    by_cases hk : kv.1 = id
    · have hk' : ¬ (kv.1 = id') := fun hx => h (hx ▸ hk)
      rw [if_pos hk, if_neg hk', ih]
    · rw [if_neg hk, cartFind_cons]
      by_cases hk' : kv.1 = id'
      · rw [if_pos hk', if_pos hk']
      · rw [if_neg hk', if_neg hk', ih]

theorem cartFind_append_self {c : Cart} {id : String} (h : cartFind c id = none)
    (l : CartLine) : cartFind (c ++ [(id, l)]) id = some l := by
  induction c with
  | nil => simp [cartFind, List.find?_cons]
  | cons kv c ih =>
    have hk : ¬ (kv.1 = id) := (cartFind_eq_none_iff.mp h) kv (by simp)
    have hc : cartFind c id = none := by
      rw [cartFind_eq_none_iff]
      intro kv' hm
      exact (cartFind_eq_none_iff.mp h) kv' (by simp [hm])
    rw [List.cons_append, cartFind_cons, if_neg hk]
    exact ih hc

theorem cartFind_append_ne {c : Cart} {id id' : String} (h : id' ≠ id) (l : CartLine) :
    cartFind (c ++ [(id, l)]) id' = cartFind c id' := by
  induction c with
  | nil =>
    show cartFind [(id, l)] id' = none
    rw [cartFind_cons, if_neg (fun hx => h hx.symm)]
    rfl
  | cons kv c ih =>
    rw [List.cons_append, cartFind_cons, cartFind_cons]
    by_cases hk : kv.1 = id'
    · rw [if_pos hk, if_pos hk]
    · rw [if_neg hk, if_neg hk, ih]

/-- Well-formedness maintained by the cart handlers: every present line has
quantity at least 1, and the object has no duplicate keys. -/
def CartWF (c : Cart) : Prop :=
  (∀ kv ∈ c, 1 ≤ kv.2.quantity) ∧ (c.map Prod.fst).Nodup

theorem cartUpdate_keys (c : Cart) (id : String) (f : CartLine → CartLine) :
    (cartUpdate c id f).map Prod.fst = c.map Prod.fst := by
  induction c with
  | nil => rfl
  | cons kv c ih =>
    rw [cartUpdate_cons, List.map_cons, List.map_cons, ih]
    by_cases h : kv.1 = id
    · rw [if_pos h]
    · rw [if_neg h]

theorem cartFind_some_of_mem {c : Cart} (hnd : (c.map Prod.fst).Nodup)
    {kv : String × CartLine} (hm : kv ∈ c) : cartFind c kv.1 = some kv.2 := by
  induction c with
  | nil => cases hm
  | cons hd tl ih =>
    rw [List.map_cons, List.nodup_cons] at hnd
    rcases List.mem_cons.mp hm with h | h
    · subst h
      rw [cartFind_cons, if_pos rfl]
    · have hne : ¬ (hd.1 = kv.1) := by
        intro hx
        exact hnd.1 (by rw [hx]; exact List.mem_map.mpr ⟨kv, h, rfl⟩)
      rw [cartFind_cons, if_neg hne]
      exact ih hnd.2 h

theorem cartWF_nil : CartWF [] :=
  ⟨fun kv hm => absurd hm (List.not_mem_nil kv), List.nodup_nil⟩

theorem cartWF_cartUpdate_add {c : Cart} (h : CartWF c) (id : String) :
    CartWF (cartUpdate c id fun l => { l with quantity := l.quantity + 1 }) := by
  refine ⟨?_, by rw [show (cartUpdate c id _).map Prod.fst = c.map Prod.fst from cartUpdate_keys c id _]; exact h.2⟩
  intro kv' hm
  rcases List.mem_map.mp hm with ⟨kv, hkv, he⟩
  by_cases hk : kv.1 = id
  · rw [if_pos hk] at he
    rw [← he]
    have := h.1 kv hkv
    simp only
    omega
  · rw [if_neg hk] at he
    rw [← he]
    exact h.1 kv hkv

theorem cartWF_addToCart {c : Cart} (h : CartWF c) (id nm : String) (p : ℚ) :
    CartWF (addToCart c id nm p) := by
  unfold addToCart
  cases hf : cartFind c id with
  | some l => exact cartWF_cartUpdate_add h id
  | none =>
    constructor
    · intro kv' hm
      rcases List.mem_append.mp hm with hm | hm
      · exact h.1 kv' hm
      · rw [List.mem_singleton.mp hm]
    · rw [List.map_append]
      rw [List.nodup_append]
      refine ⟨h.2, List.nodup_singleton _, ?_⟩
      intro a ha hb
      rcases List.mem_map.mp ha with ⟨kv, hkv, he⟩
      have hid : a = id := by simpa using hb
      exact (cartFind_eq_none_iff.mp hf) kv hkv (by rw [he, hid])

theorem cartWF_increaseQty {c : Cart} (h : CartWF c) (id : String) :
    CartWF (increaseQty c id) := by
  unfold increaseQty
  cases cartFind c id with
  | some l => exact cartWF_cartUpdate_add h id
  | none => exact h

theorem cartWF_cartErase {c : Cart} (h : CartWF c) (id : String) :
    CartWF (cartErase c id) := by
  constructor
  · intro kv hm
    exact h.1 kv (List.mem_filter.mp hm).1
  · exact List.Nodup.sublist (List.Sublist.map Prod.fst (List.filter_sublist c)) h.2

theorem cartWF_decreaseQty {c : Cart} (h : CartWF c) (id : String) :
    CartWF (decreaseQty c id) := by
  unfold decreaseQty
  cases hf : cartFind c id with
  | none => exact h
  | some l =>
    show CartWF (if l.quantity - 1 ≤ 0 then cartErase c id
      else cartUpdate c id fun l => { l with quantity := l.quantity - 1 })
    by_cases hq : l.quantity - 1 ≤ 0
    · rw [if_pos hq]
      exact cartWF_cartErase h id
    · rw [if_neg hq]
      refine ⟨?_, by rw [show (cartUpdate c id _).map Prod.fst = c.map Prod.fst from cartUpdate_keys c id _]; exact h.2⟩
      intro kv' hm
      rcases List.mem_map.mp hm with ⟨kv, hkv, he⟩
      by_cases hk : kv.1 = id
      · rw [if_pos hk] at he
        have hkl : kv.2 = l := by
          have := cartFind_some_of_mem h.2 hkv
          rw [hk, hf] at this
          exact (Option.some.inj this).symm
        rw [← he]
        simp only
        rw [hkl]
        omega
      · rw [if_neg hk] at he
        rw [← he]
        exact h.1 kv hkv

theorem cartWF_removeItem {c : Cart} (h : CartWF c) (id : String) :
    CartWF (removeItem c id) := by
  unfold removeItem
  cases cartFind c id with
  | some l => exact cartWF_cartErase h id
  | none => exact h

theorem cartWF_applyOp {c : Cart} (h : CartWF c) (op : CartOp) : CartWF (applyOp c op) := by
  cases op with
  | add id nm p => exact cartWF_addToCart h id nm p
  | inc id => exact cartWF_increaseQty h id
  | dec id => exact cartWF_decreaseQty h id
  | rem id => exact cartWF_removeItem h id

theorem cartWF_runOps (ops : List CartOp) : CartWF (runOps ops) := by
  suffices h : ∀ c, CartWF c → CartWF (ops.foldl applyOp c) from h [] cartWF_nil
  induction ops with
  | nil => exact fun c h => h
  | cons op ops ih => exact fun c h => ih _ (cartWF_applyOp h op)

theorem totals_foldl_aux (c : Cart) (a : Int × ℚ) :
    c.foldl (fun acc kv => (acc.1 + kv.2.quantity, acc.2 + kv.2.price * (kv.2.quantity : ℚ))) a
      = (a.1 + (c.map fun kv => kv.2.quantity).sum,
         a.2 + (c.map fun kv => kv.2.price * (kv.2.quantity : ℚ)).sum) := by
  induction c generalizing a with
  | nil => simp
  | cons kv c ih => simp [List.foldl_cons, ih, add_assoc]

theorem totals_eq_sums (c : Cart) :
    totals c = ((c.map fun kv => kv.2.quantity).sum,
                (c.map fun kv => kv.2.price * (kv.2.quantity : ℚ)).sum) := by
  rw [totals, totals_foldl_aux]
  simp

theorem jsonToCartLine_cartLineToJson (l : CartLine) :
    jsonToCartLine (cartLineToJson l) = some l := by
  show (if ((l.quantity : ℚ)).den = 1
      then some { name := l.name, price := l.price, quantity := ((l.quantity : ℚ)).num }
      else none) = some l
  rw [if_pos (Rat.den_intCast l.quantity), Rat.num_intCast]

theorem jsonToCart_cartToJson (c : Cart) : jsonToCart (cartToJson c) = some c := by
  induction c with
  | nil => rfl
  | cons kv c ih =>
    show jsonMembersToCart (((kv.1, cartLineToJson kv.2)) :: c.map fun kv => (kv.1, cartLineToJson kv.2))
        = some (kv :: c)
    have ihm : jsonMembersToCart (c.map fun kv => (kv.1, cartLineToJson kv.2)) = some c := ih
    simp [jsonMembersToCart, jsonToCartLine_cartLineToJson, ihm]

/-! ## Feed lemmas -/

theorem succHandler_inFlight (s : FeedState) (req : Request) (r : Response) :
    (succHandler s req r).inFlight = s.inFlight := by
  unfold succHandler
  split <;> split <;> rfl

theorem errHandler_inFlight (s : FeedState) :
    (errHandler s).inFlight = s.inFlight := rfl

/-- The one-fetch-at-a-time invariant the spec intends: at most one pending
request, and a pending request implies the button (the Loading guard) is
disabled. -/
def FeedInv (s : FeedState) : Prop :=
  s.inFlight.length ≤ 1 ∧ (s.inFlight ≠ [] → s.btnDisabled = true)

theorem feedInv_init : FeedInv initState := by
  constructor
  · simp [initState]
  · intro h
    exact absurd rfl h

theorem feedInv_loadNext {s : FeedState} (h : FeedInv s) : FeedInv (step s .loadNext) := by
  show FeedInv (loadMoreListings s false)
  by_cases hd : s.btnDisabled = true
  · simp only [loadMoreListings, hd, Bool.not_false, Bool.and_true, if_pos]
    exact h
  · have hfl : s.inFlight = [] := by
      by_contra hne
      exact hd (h.2 hne)
    have hdf : s.btnDisabled = false := by
      cases hb : s.btnDisabled
      · rfl
      · exact absurd hb hd
    simp only [loadMoreListings, hdf, Bool.not_false, Bool.and_true, Bool.false_eq_true,
      if_false, if_neg]
    cases hnp : s.nextPage with
    | none => exact h
    | some p =>
      cases p with
      | zero => exact h
      | succ k =>
        refine ⟨?_, fun _ => rfl⟩
        simp [hfl]

theorem feedInv_applyFilter (s : FeedState) (f : FeedFilter) (hfl : s.inFlight = []) :
    FeedInv (step s (.applyFilter f)) := by
  show FeedInv (loadMoreListings { s with activeFilter := f } true)
  simp only [loadMoreListings, Bool.not_true, Bool.and_false, Bool.false_eq_true, if_false,
    if_true]
  refine ⟨?_, fun _ => rfl⟩
  simp [hfl]

theorem feedInv_respond {s : FeedState} (h : FeedInv s) (i : Nat) (r : Response) :
    FeedInv (step s (.respond i r)) := by
  show FeedInv (match s.inFlight.get? i with
    | none => s
    | some req => succHandler { s with inFlight := s.inFlight.eraseIdx i } req r)
  cases hg : s.inFlight.get? i with
  | none => exact h
  | some req =>
    have hi : i < s.inFlight.length := List.get?_eq_some.mp hg |>.1
    have hlen : s.inFlight.length = 1 := by
      have h1 := h.1
      omega
    have hnil : s.inFlight.eraseIdx i = [] := by
      have h2 := List.length_eraseIdx_add_one hi
      rw [hlen] at h2
      exact List.length_eq_zero.mp (by omega)
    constructor
    · rw [succHandler_inFlight]
      simp [hnil]
    · intro hne
      rw [succHandler_inFlight] at hne
      simp [hnil] at hne

theorem feedInv_fail {s : FeedState} (h : FeedInv s) (i : Nat) :
    FeedInv (step s (.fail i)) := by
  show FeedInv (match s.inFlight.get? i with
    | none => s
    | some _ => errHandler { s with inFlight := s.inFlight.eraseIdx i })
  cases hg : s.inFlight.get? i with
  | none => exact h
  | some req =>
    have hi : i < s.inFlight.length := List.get?_eq_some.mp hg |>.1
    have hlen : s.inFlight.length = 1 := by
      have h1 := h.1
      omega
    have hnil : s.inFlight.eraseIdx i = [] := by
      have h2 := List.length_eraseIdx_add_one hi
      rw [hlen] at h2
      exact List.length_eq_zero.mp (by omega)
    constructor
    · rw [errHandler_inFlight]
      simp [hnil]
    · intro hne
      rw [errHandler_inFlight] at hne
      simp [hnil] at hne

/-! ## Claims -/

/-- C4: starting from the empty cart, any sequence of add/increase/decrease/
remove events leaves every present cart line with quantity ≥ 1; a decrease
on a line whose quantity would reach 0 deletes the line entirely, and after
that deletion an increase or decrease on that id is a no-op while an add
starts fresh at quantity 1. -/
theorem cart_quantity_invariant (ops : List CartOp) (id nm : String) (p : ℚ)
    (line : CartLine) :
    (∀ kv ∈ runOps ops, 1 ≤ kv.2.quantity)
    ∧ (cartFind (runOps ops) id = some line → line.quantity = 1 →
        cartFind (decreaseQty (runOps ops) id) id = none
        ∧ increaseQty (decreaseQty (runOps ops) id) id = decreaseQty (runOps ops) id
        ∧ decreaseQty (decreaseQty (runOps ops) id) id = decreaseQty (runOps ops) id
        ∧ cartFind (addToCart (decreaseQty (runOps ops) id) id nm p) id
            = some { name := nm, price := p, quantity := 1 }) := by
  refine ⟨(cartWF_runOps ops).1, ?_⟩
  intro hf hq
  have hdel : decreaseQty (runOps ops) id = cartErase (runOps ops) id := by
    unfold decreaseQty
    rw [hf]
    show (if line.quantity - 1 ≤ 0 then cartErase (runOps ops) id
        else cartUpdate (runOps ops) id fun l => { l with quantity := l.quantity - 1 })
      = cartErase (runOps ops) id
    rw [if_pos (by omega)]
  have hnone : cartFind (cartErase (runOps ops) id) id = none :=
    cartFind_cartErase_self (runOps ops) id
  refine ⟨?_, ?_, ?_, ?_⟩
  · rw [hdel]
    exact hnone
  · rw [hdel]
    unfold increaseQty
    rw [hnone]
  · rw [hdel]
    unfold decreaseQty
    rw [hnone]
  · rw [hdel]
    unfold addToCart
    rw [hnone]
    exact cartFind_append_self hnone _

/-- C4 witness: the scenario add X1 → decrease X1 (line deleted) →
increase/decrease no-ops → a fresh add yields quantity 1. -/
theorem cart_quantity_invariant_witness :
    cartFind (runOps [CartOp.add "X1" "W" 5]) "X1"
      = some { name := "W", price := 5, quantity := 1 }
    ∧ (cartFind (decreaseQty (runOps [CartOp.add "X1" "W" 5]) "X1") "X1" = none
       ∧ increaseQty (decreaseQty (runOps [CartOp.add "X1" "W" 5]) "X1") "X1"
           = decreaseQty (runOps [CartOp.add "X1" "W" 5]) "X1"
       ∧ decreaseQty (decreaseQty (runOps [CartOp.add "X1" "W" 5]) "X1") "X1"
           = decreaseQty (runOps [CartOp.add "X1" "W" 5]) "X1"
       ∧ cartFind (addToCart (decreaseQty (runOps [CartOp.add "X1" "W" 5]) "X1") "X1" "N" 7) "X1"
           = some { name := "N", price := 7, quantity := 1 }) :=
  ⟨by with_unfolding_all rfl,
   (cart_quantity_invariant [CartOp.add "X1" "W" 5] "X1" "N" 7
       { name := "W", price := 5, quantity := 1 }).2
     (by with_unfolding_all rfl) rfl⟩

/-- C5: for every event sequence, totals returns the sum of the surviving
quantities (always ≥ 0) and the sum of price × quantity; the Widget/9.99
scenario gives (2, 19.98), then (1, 9.99), then (0, 0) with an empty cart. -/
theorem totals_correct (ops : List CartOp) :
    (totals (runOps ops)).1 = ((runOps ops).map fun kv => kv.2.quantity).sum
    ∧ (totals (runOps ops)).2
        = ((runOps ops).map fun kv => kv.2.price * (kv.2.quantity : ℚ)).sum
    ∧ 0 ≤ (totals (runOps ops)).1
    ∧ totals (runOps [CartOp.add "X1" "Widget" (999/100), CartOp.add "X1" "Widget" (999/100)])
        = (2, 1998/100)
    ∧ totals (runOps [CartOp.add "X1" "Widget" (999/100), CartOp.add "X1" "Widget" (999/100),
        CartOp.dec "X1"]) = (1, 999/100)
    ∧ totals (runOps [CartOp.add "X1" "Widget" (999/100), CartOp.add "X1" "Widget" (999/100),
        CartOp.dec "X1", CartOp.dec "X1"]) = (0, 0)
    ∧ runOps [CartOp.add "X1" "Widget" (999/100), CartOp.add "X1" "Widget" (999/100),
        CartOp.dec "X1", CartOp.dec "X1"] = [] := by
  refine ⟨?_, ?_, ?_, ?_, ?_, ?_, ?_⟩
  · rw [totals_eq_sums]
  · rw [totals_eq_sums]
  · rw [totals_eq_sums]
    apply List.sum_nonneg
    intro x hx
    rcases List.mem_map.mp hx with ⟨kv, hm, he⟩
    have h1 := (cartWF_runOps ops).1 kv hm
    omega
  · with_unfolding_all rfl
  · with_unfolding_all rfl
  · with_unfolding_all rfl
  · with_unfolding_all rfl

/-- C10: adding an id that is already in the cart only increments that
line's quantity — the stored name and price survive even when the add
carries different name/price arguments — and no other id's line changes. -/
theorem add_existing_increments_only_quantity (c : Cart) (id nm' : String) (p' : ℚ)
    (line : CartLine) (h : cartFind c id = some line) :
    cartFind (addToCart c id nm' p') id
      = some { name := line.name, price := line.price, quantity := line.quantity + 1 }
    ∧ ∀ id', id' ≠ id → cartFind (addToCart c id nm' p') id' = cartFind c id' := by
  have hadd : addToCart c id nm' p'
      = cartUpdate c id fun l => { l with quantity := l.quantity + 1 } := by
    unfold addToCart
    rw [h]
  constructor
  · rw [hadd, cartFind_cartUpdate_self, h]
    rfl
  · intro id' hne
    rw [hadd, cartFind_cartUpdate_ne c _ hne]

/-- C10 witness: adding "a" with different name/price arguments keeps the
stored name "N" and price 5, only bumping quantity 2 → 3; id "b" is
untouched. -/
theorem add_existing_increments_only_quantity_witness :
    cartFind (addToCart [("a", { name := "N", price := 5, quantity := 2 })] "a" "M" 7) "a"
      = some { name := "N", price := 5, quantity := 3 }
    ∧ cartFind (addToCart [("a", { name := "N", price := 5, quantity := 2 })] "a" "M" 7) "b"
      = cartFind [("a", { name := "N", price := 5, quantity := 2 })] "b" := by
  have h := add_existing_increments_only_quantity
    [("a", { name := "N", price := 5, quantity := 2 })] "a" "M" 7
    { name := "N", price := 5, quantity := 2 } (by with_unfolding_all rfl)
  exact ⟨h.1, h.2 "b" (by decide)⟩

/-- C3 (counterexample): the claim says restore never raises for any stored
string, but on content that is not valid JSON `JSON.parse` throws and
nothing catches it — `cart = JSON.parse(...) || {}` only defaults the
falsy-parse/missing-key cases. -/
theorem restore_malformed_raises :
    restoreCart (some "\x7bnot json") = .error () := by
  with_unfolding_all rfl

/-- C3 (amended): restore yields a cart — the empty object for an absent
key or a falsy parse, the parsed value otherwise — for absent content and
for every stored string that is valid JSON; a stored string that is not
valid JSON makes the parse error propagate to the caller. -/
theorem restore_total_on_valid_json :
    restoreCart none = .ok (.obj [])
    ∧ (∀ s j, jsonParse s = some j →
        restoreCart (some s) = .ok (if jsTruthy j then j else .obj []))
    ∧ (∀ s, jsonParse s = none → restoreCart (some s) = .error ()) := by
  refine ⟨by with_unfolding_all rfl, ?_, ?_⟩
  · intro s j hp
    unfold restoreCart
    simp [hp]
  · intro s hp
    unfold restoreCart
    simp [hp]

/-- C3 witness for the amended claim: absent key and falsy `"0"` give the
empty cart, a well-formed object is returned as parsed, `"\x7b"` raises. -/
theorem restore_total_on_valid_json_witness :
    restoreCart none = .ok (.obj [])
    ∧ restoreCart (some "0") = .ok (.obj [])
    ∧ restoreCart (some "\x7b\"a\":1\x7d") = .ok (.obj [("a", .num 1)])
    ∧ restoreCart (some "\x7b") = .error () := by
  have h := restore_total_on_valid_json
  refine ⟨h.1, ?_, ?_, h.2.2 "\x7b" (by with_unfolding_all rfl)⟩
  · have h0 := h.2.1 "0" (.num 0) (by with_unfolding_all rfl)
    rw [h0]
    with_unfolding_all rfl
  · have h1 := h.2.1 "\x7b\"a\":1\x7d" (.obj [("a", .num 1)]) (by with_unfolding_all rfl)
    rw [h1]
    rfl

/-- C9: for every non-empty cart reachable by the four operations,
restoring the persisted snapshot reproduces an equivalent mapping — the
same ids, in order, with the same name, price and quantity. The
`hparse` hypothesis is the parse-of-stringify round-trip contract of the
JSON builtins on the snapshot string, discharged by evaluation in the
witness. -/
theorem restore_persist_roundtrip (ops : List CartOp) (hne : runOps ops ≠ [])
    (hparse : jsonParse (saveCart (runOps ops)) = some (cartToJson (runOps ops))) :
    restoreCart (some (saveCart (runOps ops))) = .ok (cartToJson (runOps ops))
    ∧ jsonToCart (cartToJson (runOps ops)) = some (runOps ops) := by
  constructor
  · unfold restoreCart
    simp [hparse, cartToJson, jsTruthy]
  · exact jsonToCart_cartToJson _

/-- C9 witness: a one-line cart with price 9.99 survives the full
stringify → store → parse round trip. -/
theorem restore_persist_roundtrip_witness :
    restoreCart (some (saveCart (runOps [CartOp.add "X1" "Widget" (999/100)])))
      = .ok (cartToJson (runOps [CartOp.add "X1" "Widget" (999/100)]))
    ∧ jsonToCart (cartToJson (runOps [CartOp.add "X1" "Widget" (999/100)]))
      = some (runOps [CartOp.add "X1" "Widget" (999/100)]) :=
  restore_persist_roundtrip [CartOp.add "X1" "Widget" (999/100)]
    (by with_unfolding_all decide) (by with_unfolding_all rfl)

/-- C6: apply_filter is permitted in every state (Idle, Loading or
Exhausted — the `disabled` guard is bypassed when `isNewFilter` is true):
it always clears the rendered items, resets next_page to 1, engages
Loading, and issues the page-1 fetch tagged with the new filter. -/
theorem applyFilter_resets (s : FeedState) (f : FeedFilter) :
    (step s (.applyFilter f)).grid = []
    ∧ (step s (.applyFilter f)).nextPage = some 1
    ∧ (step s (.applyFilter f)).btnDisabled = true
    ∧ (step s (.applyFilter f)).inFlight
        = s.inFlight ++ [{ page := 1, filter := f, isNewFilter := true,
                           origLabel := s.btnLabel }] := by
  show (loadMoreListings { s with activeFilter := f } true).grid = []
    ∧ (loadMoreListings { s with activeFilter := f } true).nextPage = some 1
    ∧ (loadMoreListings { s with activeFilter := f } true).btnDisabled = true
    ∧ (loadMoreListings { s with activeFilter := f } true).inFlight
        = s.inFlight ++ [{ page := 1, filter := f, isNewFilter := true,
                           origLabel := s.btnLabel }]
  simp [loadMoreListings]

/-- C8: a fetch failure re-enables the button with the retry text (Idle
with a retry affordance, not Exhausted), leaves the rendered items and
next_page untouched, and a subsequent load_next issues a fetch for that
same unchanged page. -/
theorem fetch_failure_retryable (s : FeedState) (i : Nat) (req : Request) (p : Nat)
    (hreq : s.inFlight.get? i = some req)
    (hp : s.nextPage = some (p+1)) (hpage : req.page = p+1) :
    (step s (.fail i)).grid = s.grid
    ∧ (step s (.fail i)).nextPage = s.nextPage
    ∧ (step s (.fail i)).btnDisabled = false
    ∧ (step s (.fail i)).btnLabel = "Failed to load. Try again?"
    ∧ (step s (.fail i)).btnHidden = s.btnHidden
    ∧ (step s (.fail i)).observerConnected = s.observerConnected
    ∧ (step (step s (.fail i)) .loadNext).inFlight
        = (step s (.fail i)).inFlight
          ++ [{ page := p+1, filter := s.activeFilter, isNewFilter := false,
                origLabel := "Failed to load. Try again?" }] := by
  have hstep : step s (.fail i)
      = errHandler { s with inFlight := s.inFlight.eraseIdx i } := by
    show (match s.inFlight.get? i with
      | none => s
      | some _ => errHandler { s with inFlight := s.inFlight.eraseIdx i }) = _
    rw [hreq]
  rw [hstep]
  refine ⟨rfl, rfl, rfl, rfl, rfl, rfl, ?_⟩
  show (loadMoreListings (errHandler { s with inFlight := s.inFlight.eraseIdx i }) false).inFlight = _
  simp [loadMoreListings, errHandler, hp]

/-- C8 witness: the page-1 fetch issued by a filter change fails; the state
is back to Idle with the retry text, the grid and next_page are unchanged,
and a load_next retries page 1. -/
theorem fetch_failure_retryable_witness :
    (step (runFeed [.applyFilter { tag := "a", search := "" }]) (.fail 0)).grid
        = (runFeed [.applyFilter { tag := "a", search := "" }]).grid
    ∧ (step (runFeed [.applyFilter { tag := "a", search := "" }]) (.fail 0)).nextPage
        = (runFeed [.applyFilter { tag := "a", search := "" }]).nextPage
    ∧ (step (runFeed [.applyFilter { tag := "a", search := "" }]) (.fail 0)).btnDisabled = false
    ∧ (step (runFeed [.applyFilter { tag := "a", search := "" }]) (.fail 0)).btnLabel
        = "Failed to load. Try again?"
    ∧ (step (runFeed [.applyFilter { tag := "a", search := "" }]) (.fail 0)).btnHidden
        = (runFeed [.applyFilter { tag := "a", search := "" }]).btnHidden
    ∧ (step (runFeed [.applyFilter { tag := "a", search := "" }]) (.fail 0)).observerConnected
        = (runFeed [.applyFilter { tag := "a", search := "" }]).observerConnected
    ∧ (step (step (runFeed [.applyFilter { tag := "a", search := "" }]) (.fail 0)) .loadNext).inFlight
        = (step (runFeed [.applyFilter { tag := "a", search := "" }]) (.fail 0)).inFlight
          ++ [{ page := 1, filter := (runFeed [.applyFilter { tag := "a", search := "" }]).activeFilter,
                isNewFilter := false, origLabel := "Failed to load. Try again?" }] :=
  fetch_failure_retryable (runFeed [.applyFilter { tag := "a", search := "" }]) 0
    { page := 1, filter := { tag := "a", search := "" }, isNewFilter := true,
      origLabel := "Load More" } 0
    (by with_unfolding_all rfl) (by with_unfolding_all rfl) rfl

/-- C7 (code bug): after a has_next=true page-1 response the controller
stores next_page 2 and returns to Idle as claimed, and after a
has_next=false response every further load_next is a no-op (the button
stays disabled and hidden) — but the claimed "stop the scroll trigger
mechanism" does not happen: the `if (observer) observer.disconnect();`
statement inside `loadMoreListings` names a `const` that is block-scoped
to the later init block, so the success handler throws a ReferenceError
(`refError`) and the IntersectionObserver keeps observing
(`observerConnected` remains true). -/
theorem exhausted_keeps_observer :
    (runFeed [.applyFilter { tag := "a", search := "" },
        .respond 0 { listings := [{ id := "L1", name := "X", price := 5 }],
                     page := 1, hasNext := true }]).nextPage = some 2
    ∧ (runFeed [.applyFilter { tag := "a", search := "" },
        .respond 0 { listings := [{ id := "L1", name := "X", price := 5 }],
                     page := 1, hasNext := true }]).btnDisabled = false
    ∧ (runFeed [.applyFilter { tag := "a", search := "" },
        .respond 0 { listings := [{ id := "L1", name := "X", price := 5 }],
                     page := 1, hasNext := true },
        .loadNext,
        .respond 0 { listings := [], page := 2, hasNext := false }]).btnHidden = true
    ∧ (runFeed [.applyFilter { tag := "a", search := "" },
        .respond 0 { listings := [{ id := "L1", name := "X", price := 5 }],
                     page := 1, hasNext := true },
        .loadNext,
        .respond 0 { listings := [], page := 2, hasNext := false }]).refError = true
    ∧ (runFeed [.applyFilter { tag := "a", search := "" },
        .respond 0 { listings := [{ id := "L1", name := "X", price := 5 }],
                     page := 1, hasNext := true },
        .loadNext,
        .respond 0 { listings := [], page := 2, hasNext := false }]).observerConnected = true
    ∧ step (runFeed [.applyFilter { tag := "a", search := "" },
        .respond 0 { listings := [{ id := "L1", name := "X", price := 5 }],
                     page := 1, hasNext := true },
        .loadNext,
        .respond 0 { listings := [], page := 2, hasNext := false }]) .loadNext
      = runFeed [.applyFilter { tag := "a", search := "" },
          .respond 0 { listings := [{ id := "L1", name := "X", price := 5 }],
                       page := 1, hasNext := true },
          .loadNext,
          .respond 0 { listings := [], page := 2, hasNext := false }] := by
  refine ⟨?_, ?_, ?_, ?_, ?_, ?_⟩ <;> with_unfolding_all rfl

/-- C1 (counterexample): filter "a" is applied (fetch in flight), then
filter "b" is applied before that fetch resolves; when the filter-"a"
response arrives it is NOT discarded — its item "LA" is rendered, and after
the filter-"b" response the grid holds the items of both responses. This
refutes the claim that the rendered set contains only filter-"b" items. -/
theorem stale_response_not_discarded :
    (runFeed [.applyFilter { tag := "a", search := "" },
        .applyFilter { tag := "b", search := "" },
        .respond 0 { listings := [{ id := "LA", name := "ItemA", price := 5 }],
                     page := 1, hasNext := true },
        .respond 0 { listings := [{ id := "LB", name := "ItemB", price := 5 }],
                     page := 1, hasNext := true }]).grid
      = [{ id := "LA", name := "ItemA", price := 5 },
         { id := "LB", name := "ItemB", price := 5 }]
    ∧ (runFeed [.applyFilter { tag := "a", search := "" },
        .applyFilter { tag := "b", search := "" },
        .respond 0 { listings := [{ id := "LA", name := "ItemA", price := 5 }],
                     page := 1, hasNext := true },
        .respond 0 { listings := [{ id := "LB", name := "ItemB", price := 5 }],
                     page := 1, hasNext := true }]).activeFilter
      = { tag := "b", search := "" } := by
  refine ⟨?_, ?_⟩ <;> with_unfolding_all rfl

/-- C1 (amended): a response whose originating filter no longer matches the
active filter is not discarded: the success handler appends its listings to
the rendered set regardless (when the response is non-empty), so stale
items are rendered under the new filter. -/
theorem stale_response_appended (s : FeedState) (i : Nat) (req : Request) (r : Response)
    (hreq : s.inFlight.get? i = some req)
    (hstale : req.filter ≠ s.activeFilter)
    (hne : r.listings ≠ []) :
    (step s (.respond i r)).grid = s.grid ++ r.listings := by
  have hstep : step s (.respond i r)
      = succHandler { s with inFlight := s.inFlight.eraseIdx i } req r := by
    show (match s.inFlight.get? i with
      | none => s
      | some req => succHandler { s with inFlight := s.inFlight.eraseIdx i } req r) = _
    rw [hreq]
  rw [hstep]
  unfold succHandler
  have hle : (req.isNewFilter && r.listings.isEmpty) = false := by
    simp [List.isEmpty_iff, hne]
  rw [hle]
  cases r.hasNext <;> simp

/-- C1 witness for the amended claim: the stale filter-"a" response is
appended to the (empty) grid cleared by the filter-"b" apply. -/
theorem stale_response_appended_witness :
    (step (runFeed [.applyFilter { tag := "a", search := "" },
                    .applyFilter { tag := "b", search := "" }])
        (.respond 0 { listings := [{ id := "LA", name := "ItemA", price := 5 }],
                      page := 1, hasNext := true })).grid
      = (runFeed [.applyFilter { tag := "a", search := "" },
                  .applyFilter { tag := "b", search := "" }]).grid
        ++ [{ id := "LA", name := "ItemA", price := 5 }] :=
  stale_response_appended
    (runFeed [.applyFilter { tag := "a", search := "" },
              .applyFilter { tag := "b", search := "" }]) 0
    { page := 1, filter := { tag := "a", search := "" }, isNewFilter := true,
      origLabel := "Load More" }
    { listings := [{ id := "LA", name := "ItemA", price := 5 }], page := 1, hasNext := true }
    (by with_unfolding_all rfl) (by decide) (by decide)

/-- C2 (counterexample): the claim says at most one fetch is ever in
flight, but applying a second filter while the first filter's fetch is
still pending leaves two requests in flight — `isNewFilter` bypasses the
`disabled` guard. -/
theorem two_fetches_in_flight :
    ¬ ((runFeed [.applyFilter { tag := "a", search := "" },
                 .applyFilter { tag := "b", search := "" }]).inFlight.length ≤ 1) := by
  have h : (runFeed [.applyFilter { tag := "a", search := "" },
      .applyFilter { tag := "b", search := "" }]).inFlight.length = 2 := by
    with_unfolding_all rfl
  rw [h]
  decide

/-- C2 (amended): at most one fetch is in flight as long as apply_filter is
only invoked while no fetch is pending: the Loading-guard invariant (one
pending request at most, button disabled while pending) holds initially
and is preserved by load_next and by response/failure delivery from any
state, and by apply_filter from fetch-free states; apply_filter during
Loading breaks it (see the counterexample). -/
theorem single_fetch_invariant :
    FeedInv initState
    ∧ (∀ s, FeedInv s → FeedInv (step s .loadNext))
    ∧ (∀ s i r, FeedInv s → FeedInv (step s (.respond i r)))
    ∧ (∀ s i, FeedInv s → FeedInv (step s (.fail i)))
    ∧ (∀ s f, s.inFlight = [] → FeedInv (step s (.applyFilter f))) :=
  ⟨feedInv_init,
   fun _ h => feedInv_loadNext h,
   fun _ i r h => feedInv_respond h i r,
   fun _ i h => feedInv_fail h i,
   fun s f h => feedInv_applyFilter s f h⟩

/-- C2 witness: the invariant transfers across concrete events from the
initial state. -/
theorem single_fetch_invariant_witness :
    FeedInv (step initState .loadNext)
    ∧ FeedInv (step initState (.applyFilter { tag := "a", search := "" })) :=
  ⟨single_fetch_invariant.2.1 initState single_fetch_invariant.1,
   single_fetch_invariant.2.2.2.2 initState { tag := "a", search := "" } rfl⟩
